import Mathlib

/-!
Shallow embedding of `flexselect/__init__.py` (django-admin-flexselect).

The module under verification provides two admin form widgets whose choice
list and details panel depend on other ("trigger") fields of the same form.
We model its Python values, model instances, widget configuration and the
module-level functions (`choices_from_queryset`, `choices_from_instance`,
`details_from_instance`, `instance_from_request`) together with the methods
of `FlexBaseWidget` (`_hashed_name`, `_get_instance`, `_build_js`, `render`)
and the process-wide registry written in `__init__`.
-/

namespace Flexselect

/-- A Python runtime value as far as this module manipulates them: strings,
integers and `None`.  Primary keys are integers in practice but the model
keeps strings available, and `PyVal.none` models Python's `None`, which the
code tests with `is not None`. -/
inductive PyVal where
  | str (s : String)
  | int (n : Int)
  | none
  deriving DecidableEq, Repr

/-- A choice pair as produced for `django.forms.widgets.Select`: a key and a
human-readable label. -/
abbrev Choice := PyVal × String

/-- `EMPTY_CHOICE = ('', '---------')` from the top of the module. -/
def EMPTY_CHOICE : Choice := (PyVal.str "", "---------")

/-- A persisted record as seen by the choice builder: its primary key `pk`
and its text rendering (what `smart_text` / `smart_unicode` returns for it). -/
structure Record where
  pk : PyVal
  text : String
  deriving DecidableEq, Repr

/-- `smart_unicode(o)` (Django's `smart_text`) applied to a record: the model
keeps the record's string form as the field `text`. -/
def smart_unicode (o : Record) : String := o.text

/-- `choices_from_queryset(queryset)`: `chain([EMPTY_CHOICE],
[(o.pk, smart_unicode(o)) for o in queryset])`.  The lazy `chain` is modelled
as list concatenation; a queryset is modelled as the list of its records in
iteration order. -/
def choices_from_queryset (queryset : List Record) : List Choice :=
  [EMPTY_CHOICE] ++ queryset.map (fun o => (o.pk, smart_unicode o))

/-- A (possibly unsaved, possibly partial) model instance: the attributes
that are present on it, with their values.  `getattr(instance, a)` succeeds
exactly when `a` is among `attrs` (a missing attribute raises
`AttributeError`; a broken relation raising `ObjectDoesNotExist` is likewise
modelled as absence, since the module catches the two exceptions together). -/
structure Instance where
  attrs : List (String × PyVal)
  deriving DecidableEq, Repr

/-- `getattr(instance, name)` where `instance` may be Python `None`
(`getattr(None, name)` raises `AttributeError` for the attribute names this
module uses): `Option.none` models the raised exception. -/
def getattrV (inst : Option Instance) (name : String) : Option PyVal :=
  match inst with
  | Option.none => Option.none
  | Option.some i => (i.attrs.find? (fun p => p.1 == name)).map (fun p => p.2)

/-- Whether `getattr(instance, name)` succeeds (does not raise). -/
def hasattr (inst : Option Instance) (name : String) : Bool :=
  (getattrV inst name).isSome

/-- A declared model field as `instance_from_request` consumes it: its `name`
and the coercion `f.formfield().to_python`, which returns a Python value
(possibly `None`) or raises `ValidationError` (modelled as `Except.error`). -/
structure Field where
  name : String
  to_python : String → Except Unit PyVal

/-- The widget's `base_field`: Django's model-field object, of which the
module uses `base_field.name` and `base_field.model._meta.fields` (the
declared fields of the model, in declaration order, with distinct names).
`base_field.model(**values)` is modelled by building an `Instance` whose
attributes are exactly the keyword arguments. -/
structure BaseField where
  name : String
  modelFields : List Field

/-- An HTTP request as the module reads it: `request.method`, the pairs of
`request.POST` (a later pair with the same key shadows an earlier one, as in
`dict(request.POST.items())`), and `request.META['PATH_INFO']`. -/
structure Request where
  method : String
  post : List (String × String)
  pathInfo : String

/-- The admin instance: the module uses its class name (for hashing) and its
`get_object(request, object_id)` contract, which returns the object or
`None`. -/
structure ModelAdmin where
  className : String
  get_object : Request → Int → Option Instance

/-- The state of a `FlexBaseWidget` as its methods read it: the constructor
arguments (`base_field`, `modeladmin`, `request`, `choice_function`), the
class attribute `unique_name`, and the three members subclasses must supply
(`trigger_fields`, `details`, `queryset`, `empty_choices_text`).  The hooks
are modelled as total functions, i.e. as implemented, normally-returning
subclass methods. -/
structure WidgetConfig where
  base_field : BaseField
  modeladmin : ModelAdmin
  request : Request
  choice_function : Option (Option Instance → List Choice)
  unique_name : Option String
  trigger_fields : List String
  details : PyVal → Option Instance → String
  queryset : Option Instance → List Record
  empty_choices_text : Option Instance → String

/-- `choices_from_instance(instance, widget)`: iterates `getattr(instance,
trigger_field)` over `widget.trigger_fields` inside `try`; if any access
raises (`ObjectDoesNotExist` or `AttributeError`) it returns
`[('', widget.empty_choices_text(instance))]`, otherwise
`choices_from_queryset(widget.queryset(instance))`.  The `getattr` calls have
no side effects, so the loop raises iff some listed attribute is missing. -/
def choices_from_instance (inst : Option Instance) (w : WidgetConfig) :
    List Choice :=
  if w.trigger_fields.any (fun t => !(hasattr inst t)) then
    [(PyVal.str "", w.empty_choices_text inst)]
  else
    choices_from_queryset (w.queryset inst)

/-- `details_from_instance(instance, widget)`: same trigger-field probing,
then `related_instance = getattr(instance, widget.base_field.name)`; if any
of these raises it returns `''`, otherwise
`widget.details(related_instance, instance)`. -/
def details_from_instance (inst : Option Instance) (w : WidgetConfig) :
    String :=
  if w.trigger_fields.any (fun t => !(hasattr inst t)) then ""
  else
    match getattrV inst w.base_field.name with
    | Option.none => ""
    | Option.some related => w.details related inst

/-- `dict(request.POST.items())` followed by `items[k]`: in a Django
`QueryDict` a later value for a key shadows an earlier one, so the lookup
returns the last pair with the given key, or `none` when the key is absent
(`f.name in items` is then false). -/
def dictOf (post : List (String × String)) (k : String) : Option String :=
  (post.reverse.find? (fun p => p.1 == k)).map (fun p => p.2)

/-- The loop body of `instance_from_request` for one declared field `f`: if
`f.name in items`, runs `value = f.formfield().to_python(items[f.name])`
inside `try` and stores `values[f.name] = value` when the coercion does not
raise `ValidationError` (`Except.error`) and `value is not None`; otherwise
leaves `values` unchanged. -/
def storeField (post : List (String × String))
    (values : List (String × PyVal)) (f : Field) : List (String × PyVal) :=
  match dictOf post f.name with
  | Option.none => values
  | Option.some raw =>
    match f.to_python raw with
    | Except.error _ => values
    | Except.ok v =>
      if v = PyVal.none then values else values ++ [(f.name, v)]

/-- `instance_from_request(request, widget)`: iterates `storeField` over the
declared fields of `widget.base_field.model` starting from an empty `values`
dictionary, then builds the unsaved instance `base_field.model(**values)`
carrying exactly the stored values (Django model field names are distinct,
so the association list built by appends represents the dictionary). -/
def instance_from_request (request : Request) (w : WidgetConfig) : Instance :=
  Instance.mk (w.base_field.modelFields.foldl (storeField request.post) [])

/-- Python `str.strip(c)` for a single character: removes every leading and
trailing occurrence of `c`. -/
def stripChar (c : Char) (s : String) : String :=
  String.mk (((s.data.dropWhile (fun d => d == c)).reverse.dropWhile
    (fun d => d == c)).reverse)

/-- Python `int(s)` on a string: strips surrounding whitespace, then accepts
an optional sign followed by at least one decimal digit; anything else
raises `ValueError`, modelled as `none`. -/
def pyInt (s : String) : Option Int :=
  let cs := ((s.data.dropWhile Char.isWhitespace).reverse.dropWhile
    Char.isWhitespace).reverse
  let digitsVal (l : List Char) : Int :=
    Int.ofNat (l.foldl (fun a c => a * 10 + (c.toNat - 48)) 0)
  match cs with
  | [] => Option.none
  | c :: rest =>
    if c = '+' then
      if !rest.isEmpty && rest.all Char.isDigit then Option.some (digitsVal rest)
      else Option.none
    else if c = '-' then
      if !rest.isEmpty && rest.all Char.isDigit then
        Option.some (-(digitsVal rest))
      else Option.none
    else if cs.all Char.isDigit then Option.some (digitsVal cs)
    else Option.none

/-- Python `str.split('/')`: splits at every `'/'`, keeping empty segments;
the empty string yields `['']`.  The resulting list is never empty. -/
def splitSlash : List Char → List (List Char)
  | [] => [[]]
  | c :: rest =>
    match splitSlash rest with
    | [] => [[]]
    | seg :: segs =>
      if c = '/' then [] :: seg :: segs else (c :: seg) :: segs

/-- The trailing path segment used by `_get_instance`:
`request.META['PATH_INFO'].strip('/').split('/').pop()`; `.pop()` takes the
last element of the never-empty segment list. -/
def trailingSegment (pathInfo : String) : String :=
  String.mk ((splitSlash (stripChar '/' pathInfo).data).getLastD [])

/-- `FlexBaseWidget._get_instance`: on POST delegates to
`instance_from_request` (which always constructs an instance); otherwise
parses the trailing path segment with `int(...)` — a `ValueError` is caught
and yields `None` — and on success returns
`modeladmin.get_object(request, object_id)`. -/
def getInstance (w : WidgetConfig) : Option Instance :=
  if w.request.method = "POST" then
    Option.some (instance_from_request w.request w)
  else
    match pyInt (trailingSegment w.request.pathInfo) with
    | Option.none => Option.none
    | Option.some object_id => w.modeladmin.get_object w.request object_id

/-- UTF-8 encoding of a single Unicode code point, as `str.encode('utf-8')`
produces it. -/
def utf8Bytes (n : Nat) : List Nat :=
  if n < 0x80 then [n]
  else if n < 0x800 then [0xC0 + n / 64, 0x80 + n % 64]
  else if n < 0x10000 then
    [0xE0 + n / 4096, 0x80 + (n / 64) % 64, 0x80 + n % 64]
  else
    [0xF0 + n / 262144, 0x80 + (n / 4096) % 64, 0x80 + (n / 64) % 64,
      0x80 + n % 64]

/-- `s.encode('utf-8')` as a byte list. -/
def utf8Encode (s : String) : List Nat :=
  s.data.foldr (fun c acc => utf8Bytes c.toNat ++ acc) []

/-- Left rotation of a 32-bit word held in a `Nat`. -/
def rotl32 (n x : Nat) : Nat :=
  ((x <<< n) % 4294967296) ||| ((x % 4294967296) >>> (32 - n))

/-- Splits a byte list into successive 64-byte chunks; the first argument is
recursion fuel, instantiated with the list length (each step consumes 64 ≥ 1
bytes, so the fuel never runs out). -/
def chunks64Go : Nat → List Nat → List (List Nat)
  | _, [] => []
  | 0, l => [l]
  | fuel + 1, b :: rest => (b :: rest).take 64 :: chunks64Go fuel (rest.drop 63)

/-- Splits a byte list into successive 64-byte chunks. -/
def chunks64 (l : List Nat) : List (List Nat) :=
  chunks64Go l.length l

/-- Big-endian grouping of bytes into 32-bit words. -/
def bytesToWords : List Nat → List Nat
  | b0 :: b1 :: b2 :: b3 :: rest =>
    (((b0 * 256 + b1) * 256 + b2) * 256 + b3) :: bytesToWords rest
  | _ => []

/-- SHA-1 message-schedule extension step: prepends `n` further words to the
reversed word list, each the 1-bit left rotation of the XOR of the words 3,
8, 14 and 16 positions back. -/
def sha1Extend : Nat → List Nat → List Nat
  | 0, acc => acc
  | n + 1, acc =>
    sha1Extend n
      (rotl32 1 (((acc.getD 2 0) ^^^ (acc.getD 7 0)) ^^^
        ((acc.getD 13 0) ^^^ (acc.getD 15 0))) :: acc)

/-- The 80 rounds of the SHA-1 compression function, `i` counting rounds
done so far and the list carrying the remaining schedule words. -/
def sha1Rounds : Nat → List Nat → Nat × Nat × Nat × Nat × Nat →
    Nat × Nat × Nat × Nat × Nat
  | _, [], st => st
  | i, wi :: ws, (a, b, c, d, e) =>
    let f :=
      if i < 20 then (b &&& c) ||| ((b ^^^ 4294967295) &&& d)
      else if i < 40 then (b ^^^ c) ^^^ d
      else if i < 60 then ((b &&& c) ||| (b &&& d)) ||| (c &&& d)
      else (b ^^^ c) ^^^ d
    let k :=
      if i < 20 then 0x5A827999
      else if i < 40 then 0x6ED9EBA1
      else if i < 60 then 0x8F1BBCDC
      else 0xCA62C1D6
    let temp := (rotl32 5 a + f + e + k + wi) % 4294967296
    sha1Rounds (i + 1) ws (temp, a, rotl32 30 b, c, d)

/-- Processes one padded 64-byte chunk, updating the five hash words. -/
def sha1Chunk (hs : Nat × Nat × Nat × Nat × Nat) (chunk : List Nat) :
    Nat × Nat × Nat × Nat × Nat :=
  let ws := (sha1Extend 64 (bytesToWords chunk).reverse).reverse
  let (h0, h1, h2, h3, h4) := hs
  let (a, b, c, d, e) := sha1Rounds 0 ws hs
  ((h0 + a) % 4294967296, (h1 + b) % 4294967296, (h2 + c) % 4294967296,
    (h3 + d) % 4294967296, (h4 + e) % 4294967296)

/-- One lowercase hexadecimal digit. -/
def hexDigit (n : Nat) : Char :=
  if n < 10 then Char.ofNat (48 + n) else Char.ofNat (87 + n)

/-- Eight lowercase hex digits of a 32-bit word, most significant first. -/
def word32Hex (w : Nat) : List Char :=
  (List.range 8).map (fun i => hexDigit ((w >>> (28 - 4 * i)) % 16))

/-- `hashlib.sha1(bytes).hexdigest()`: SHA-1 with standard padding over the
UTF-8 bytes of the string, rendered as forty lowercase hex digits. -/
def sha1hex (s : String) : String :=
  let msg := utf8Encode s
  let ml := 8 * msg.length
  let zeros := (120 - (msg.length + 1) % 64) % 64
  let lenBytes := (List.range 8).map (fun i => (ml >>> (56 - 8 * i)) % 256)
  let padded := msg ++ [0x80] ++ List.replicate zeros 0 ++ lenBytes
  let (h0, h1, h2, h3, h4) := (chunks64 padded).foldl sha1Chunk
    (0x67452301, 0xEFCDAB89, 0x98BADCFE, 0x10325476, 0xC3D2E1F0)
  String.mk (word32Hex h0 ++ word32Hex h1 ++ word32Hex h2 ++ word32Hex h3 ++
    word32Hex h4)

/-- `FlexBaseWidget._hashed_name`: the explicit `unique_name` when one is
set; otherwise an underscore followed by the SHA-1 hex digest of
`''.join([settings.SECRET_KEY, base_field.name,
modeladmin.__class__.__name__]).encode('utf-8')` — plain concatenation of
the three components. -/
def hashedName (secret : String) (w : WidgetConfig) : String :=
  match w.unique_name with
  | Option.some u => u
  | Option.none =>
    "_" ++ sha1hex (secret ++ w.base_field.name ++ w.modeladmin.className)

/-- The Python classes of the module and the two framework base classes the
widgets mix in, plus `object`. -/
inductive PyType where
  | flexBaseWidget
  | flexSelectWidget
  | flexSelectMultipleWidget
  | selectWidget
  | selectMultipleWidget
  | objectType
  deriving DecidableEq, Repr

/-- Method-resolution order of the classes as CPython computes it:
`FlexSelectWidget(FlexBaseWidget, Select)` and
`FlexSelectMultipleWidget(FlexBaseWidget, SelectMultiple)`. -/
def mro : PyType → List PyType
  | PyType.flexSelectWidget =>
    [PyType.flexSelectWidget, PyType.flexBaseWidget, PyType.selectWidget,
      PyType.objectType]
  | PyType.flexSelectMultipleWidget =>
    [PyType.flexSelectMultipleWidget, PyType.flexBaseWidget,
      PyType.selectMultipleWidget, PyType.objectType]
  | PyType.flexBaseWidget => [PyType.flexBaseWidget, PyType.objectType]
  | t => [t, PyType.objectType]

/-- Whether the class body itself assigns the attribute `instances`.  Only
`FlexBaseWidget` does (`instances = {}`); neither subclass rebinds it, and
`FlexSelectWidget.instances[...] = self` mutates the dictionary found by
attribute lookup rather than creating a new class attribute. -/
def declaresInstancesDict : PyType → Bool
  | PyType.flexBaseWidget => true
  | _ => false

/-- Resolution of the class attribute `instances`: the first class along the
MRO whose body assigns it, i.e. the class owning the dictionary object that
`cls.instances` denotes. -/
def instancesOwner (t : PyType) : Option PyType :=
  (mro t).find? declaresInstancesDict

/-- The process-wide registry `FlexBaseWidget.instances`: a dictionary from
hashed name to the registered widget (tagged with the concrete class that
was constructed).  An assignment prepends a binding; lookup takes the most
recent binding, which models dictionary overwrite. -/
def Registry := List (String × (PyType × WidgetConfig))

/-- `instances[k] = v`. -/
def registryInsert (r : Registry) (k : String) (v : PyType × WidgetConfig) :
    Registry :=
  (k, v) :: r

/-- `instances.get(k)`. -/
def registryLookup (r : Registry) (k : String) :
    Option (PyType × WidgetConfig) :=
  (r.find? (fun p => p.1 == k)).map (fun p => p.2)

/-- `FlexBaseWidget.__init__` as a registry transition: the constructor
stores its arguments, computes `self.hashed_name = self._hashed_name()` and
executes `FlexSelectWidget.instances[self.hashed_name] = self`, which writes
into the single dictionary owned by `FlexBaseWidget`. -/
def construct (secret : String) (r : Registry) (t : PyType)
    (w : WidgetConfig) : Registry :=
  registryInsert r (hashedName secret w) (t, w)

/-- A sequence of widget constructions run against an initially empty
registry; construction is the only operation of the module that touches the
registry. -/
def runConstructions (secret : String)
    (evs : List (PyType × WidgetConfig)) : Registry :=
  evs.foldl (fun r e => construct secret r e.1 e.2) []

/-- The Python exceptions the render path can raise in the model. -/
inductive PyErr where
  | typeError
  deriving DecidableEq, Repr

/-- The expression `super(self, FlexBaseWidget).render(...)` in
`FlexBaseWidget.render`.  CPython requires the first argument of `super` to
be a type; the source passes the instance first (the arguments are swapped),
so evaluating the expression raises `TypeError: super() argument 1 must be
type` before any base-control markup is produced. -/
def superSelfFlexBaseWidget : Except PyErr String := Except.error PyErr.typeError

/-- JSON string escaping as `json.dumps` applies it to the identifier-like
field names this module serialises (backslash and double quote). -/
def jsonEscape (s : String) : String :=
  String.mk (s.data.foldr
    (fun c acc => if c = '"' ∨ c = '\\' then '\\' :: c :: acc else c :: acc)
    [])

/-- A JSON string literal. -/
def jsonStr (s : String) : String := "\"" ++ jsonEscape s ++ "\""

/-- `json.dumps({'base_field': base_field.name, 'trigger_fields':
trigger_fields})` with the default `", "` and `": "` separators. -/
def jsonDumpsFields (bf : String) (tfs : List String) : String :=
  "\x7b\"base_field\": " ++ jsonStr bf ++ ", \"trigger_fields\": [" ++
    String.intercalate ", " (tfs.map jsonStr) ++ "]\x7d"

/-- `FlexBaseWidget._build_js`: the inline script publishing the callback
URL (`reverse('flexselect_field_changed')`, passed in as `url`) and, keyed
by the widget's hashed name, the base-field name and trigger-field names. -/
def buildJs (url hashed : String) (w : WidgetConfig) : String :=
  "\n        <script>\n            var flexselect = flexselect || \x7b\x7d;" ++
  "\n            flexselect.fields = flexselect.fields || \x7b\x7d;" ++
  "\n            flexselect.url = " ++ url ++ ";" ++
  "\n            flexselect.fields." ++ hashed ++ " = " ++
  jsonDumpsFields w.base_field.name w.trigger_fields ++
  ";\n        </script>"

/-- `FlexBaseWidget.render`: resolves the instance, assigns `self.choices`
(the supplied `choice_function` applied to the instance when present,
otherwise `choices_from_instance`), then joins the pieces of the output,
whose first element is the `super(self, FlexBaseWidget).render(...)` call.
The returned pair carries the assigned choice list and the outcome of the
method body; `self.hashed_name` was set at construction to
`hashedName secret w`, and `mark_safe` does not change the text. -/
def render (secret url : String) (w : WidgetConfig) :
    List Choice × Except PyErr String :=
  let inst := getInstance w
  let choices :=
    match w.choice_function with
    | Option.some f => f inst
    | Option.none => choices_from_instance inst w
  (choices,
    match superSelfFlexBaseWidget with
    | Except.error e => Except.error e
    | Except.ok markup =>
      Except.ok (String.join
        [markup, buildJs url (hashedName secret w) w,
          "<span class=\"flexselect_details\">",
          details_from_instance inst w, "</span>"]))

/-- The entry a field contributes to the keyword arguments of
`base_field.model(**values)`: `some (name, value)` when the field name is
submitted, its coercion does not raise and the coerced value `is not None`;
`none` otherwise.  Specification form used to characterise
`instance_from_request`. -/
def coercedEntry (post : List (String × String)) (f : Field) :
    Option (String × PyVal) :=
  match dictOf post f.name with
  | Option.none => Option.none
  | Option.some raw =>
    match f.to_python raw with
    | Except.error _ => Option.none
    | Except.ok v =>
      if v = PyVal.none then Option.none else Option.some (f.name, v)

/-- A model field behaving like Django's `IntegerField` form field: the
empty string coerces to `None`, a decimal literal to an integer, and
anything else raises `ValidationError`. -/
def intFieldModel (n : String) : Field :=
  Field.mk n (fun raw =>
    if raw = "" then Except.ok PyVal.none
    else
      match pyInt raw with
      | Option.some k => Except.ok (PyVal.int k)
      | Option.none => Except.error ())

/-- A concrete admin: object id 1 exists and has a `client` attribute. -/
def exAdmin : ModelAdmin :=
  ModelAdmin.mk "EntryAdmin" (fun _ oid =>
    if oid = 1 then Option.some (Instance.mk [("client", PyVal.int 7)])
    else Option.none)

/-- A concrete widget used by the witnesses: bound to field `client` of a
model declaring integer fields `category` and `author`, on a GET request for
the admin add page. -/
def exWidget : WidgetConfig :=
  WidgetConfig.mk
    (BaseField.mk "client" [intFieldModel "category", intFieldModel "author"])
    exAdmin
    (Request.mk "GET" [] "/admin/app/entry/add/")
    Option.none
    Option.none
    ["client"]
    (fun _ _ => "<div>details</div>")
    (fun _ => [Record.mk (PyVal.int 1) "A", Record.mk (PyVal.int 2) "B"])
    (fun _ => "Select a client first")

/-- `exWidget` with an empty `trigger_fields` list (the class default). -/
def noTriggerWidget : WidgetConfig := { exWidget with trigger_fields := [] }

/-- `exWidget` on a GET request whose path ends in an object id. -/
def exWidgetB : WidgetConfig :=
  { exWidget with request := Request.mk "GET" [] "/admin/app/entry/1/" }

/-- `exWidget` bound to base field `author` instead. -/
def authorWidget : WidgetConfig :=
  { exWidget with base_field := BaseField.mk "author" [] }

/-- A widget whose configuration triple is `("s", "bc", "X")`. -/
def boundaryWidget1 : WidgetConfig :=
  { exWidget with
    base_field := BaseField.mk "bc" []
    modeladmin := ModelAdmin.mk "X" (fun _ _ => Option.none) }

/-- A widget whose configuration triple is `("s", "b", "cX")`. -/
def boundaryWidget2 : WidgetConfig :=
  { exWidget with
    base_field := BaseField.mk "b" []
    modeladmin := ModelAdmin.mk "cX" (fun _ _ => Option.none) }

/-- A widget with the explicit override name `_w1`. -/
def regWidget1 : WidgetConfig :=
  { exWidget with unique_name := Option.some "_w1" }

/-- A widget with the explicit override name `_w2`. -/
def regWidget2 : WidgetConfig :=
  { exWidget with unique_name := Option.some "_w2" }

/-- `exWidget` on a POST whose values are invalid for every declared field. -/
def invalidPostWidget : WidgetConfig :=
  { exWidget with
    request :=
      Request.mk "POST" [("category", "x"), ("author", "y")]
        "/admin/app/entry/add/" }

/-- `exWidget` on a POST with one valid value and one empty value (which
`IntegerField` coerces to `None`). -/
def mixedPostWidget : WidgetConfig :=
  { exWidget with
    request :=
      Request.mk "POST" [("category", "2"), ("author", "")]
        "/admin/app/entry/add/" }

/-- Claim C2: for every queryset, `choices_from_queryset` yields the empty
sentinel pair first, then exactly one `(pk, label)` pair per record in the
queryset's order; the empty queryset yields only the sentinel.  The spec's
example with records `[(1, "A"), (2, "B")]` is included. -/
theorem choices_from_queryset_sentinel_then_records (queryset : List Record) :
    (choices_from_queryset queryset).head? = some EMPTY_CHOICE ∧
    (choices_from_queryset queryset).drop 1 =
      queryset.map (fun o => (o.pk, smart_unicode o)) ∧
    (choices_from_queryset queryset).length = queryset.length + 1 ∧
    choices_from_queryset [] = [EMPTY_CHOICE] ∧
    choices_from_queryset [⟨PyVal.int 1, "A"⟩, ⟨PyVal.int 2, "B"⟩] =
      [(PyVal.str "", "---------"), (PyVal.int 1, "A"), (PyVal.int 2, "B")] := by
  refine ⟨rfl, rfl, ?_, rfl, rfl⟩
  simp [choices_from_queryset]

theorem hasattr_of_none (t : String) : hasattr Option.none t = false := rfl

theorem anyMissing_of_none (tfs : List String) (h : tfs ≠ []) :
    tfs.any (fun t => !(hasattr Option.none t)) = true := by
  cases tfs with
  | nil => exact absurd rfl h
  | cons a l => simp [hasattr, getattrV]

/-- Claim C3 (counterexample): the claim quantifies over every widget and
every instance including `None`, but a widget whose `trigger_fields` list is
empty (the class default) runs the trigger loop vacuously, so for the `None`
instance `choices_from_instance` proceeds to the queryset path and returns
the sentinel-prefixed queryset choices, not the single empty-state choice. -/
theorem choices_from_instance_none_no_trigger_cex :
    choices_from_instance Option.none noTriggerWidget ≠
      [(PyVal.str "", noTriggerWidget.empty_choices_text Option.none)] ∧
    choices_from_instance Option.none noTriggerWidget =
      [EMPTY_CHOICE, (PyVal.int 1, "A"), (PyVal.int 2, "B")] := by
  constructor
  · decide
  · rfl

/-- Claim C3 (amended): for every widget and instance, whenever the instance
is `None` and the widget has at least one trigger field, or some trigger
field attribute is missing on the instance, `choices_from_instance` returns
the single empty-state choice and `details_from_instance` returns the empty
string; moreover `details_from_instance` on the `None` instance returns the
empty string for every widget (the base-field attribute access fails even
with no trigger fields). -/
theorem choices_details_degrade (w : WidgetConfig) (inst : Option Instance)
    (h : (inst = Option.none ∧ w.trigger_fields ≠ []) ∨
      w.trigger_fields.any (fun t => !(hasattr inst t)) = true) :
    choices_from_instance inst w =
      [(PyVal.str "", w.empty_choices_text inst)] ∧
    details_from_instance inst w = "" ∧
    details_from_instance Option.none w = "" := by
  have hm : w.trigger_fields.any (fun t => !(hasattr inst t)) = true := by
    rcases h with ⟨hn, hne⟩ | h2
    · subst hn; exact anyMissing_of_none _ hne
    · exact h2
  refine ⟨?_, ?_, ?_⟩
  · simp [choices_from_instance, hm]
  · simp [details_from_instance, hm]
  · cases hc : w.trigger_fields.any (fun t => !(hasattr Option.none t)) with
    | true => simp [details_from_instance, hc]
    | false => simp [details_from_instance, hc, getattrV]

theorem choices_details_degrade_witness :
    choices_from_instance Option.none exWidget =
      [(PyVal.str "", exWidget.empty_choices_text Option.none)] ∧
    details_from_instance Option.none exWidget = "" ∧
    details_from_instance Option.none exWidget = "" :=
  choices_details_degrade exWidget Option.none (Or.inl ⟨rfl, by decide⟩)

theorem storeField_eq_append (post : List (String × String))
    (values : List (String × PyVal)) (f : Field) :
    storeField post values f = values ++ (coercedEntry post f).toList := by
  unfold storeField coercedEntry
  cases h1 : dictOf post f.name with
  | none => simp
  | some raw =>
    cases h2 : f.to_python raw with
    | error e => simp [h2]
    | ok v => by_cases h3 : v = PyVal.none <;> simp [h2, h3]

theorem foldl_storeField_eq (post : List (String × String))
    (fields : List Field) :
    ∀ values, fields.foldl (storeField post) values =
      values ++ fields.filterMap (coercedEntry post) := by
  induction fields with
  | nil => intro values; simp
  | cons f fs ih =>
    intro values
    rw [List.foldl_cons, ih, storeField_eq_append]
    cases h : coercedEntry post f <;> simp [List.filterMap_cons, h]

theorem instance_from_request_attrs (req : Request) (w : WidgetConfig) :
    (instance_from_request req w).attrs =
      w.base_field.modelFields.filterMap (coercedEntry req.post) := by
  show w.base_field.modelFields.foldl (storeField req.post) [] = _
  rw [foldl_storeField_eq]
  rfl

/-- Claim C4: every field populated on the instance reconstructed by
`instance_from_request` comes from a declared model field whose name was
submitted and whose form-field coercion of the submitted string succeeded;
and if the submitted value of every declared field fails coercion, the
reconstructed instance has no populated fields. -/
theorem instance_from_request_coercion (req : Request) (w : WidgetConfig) :
    (∀ n v, (n, v) ∈ (instance_from_request req w).attrs →
      ∃ f, f ∈ w.base_field.modelFields ∧ f.name = n ∧
        ∃ raw, dictOf req.post n = Option.some raw ∧
          f.to_python raw = Except.ok v) ∧
    ((∀ f, f ∈ w.base_field.modelFields →
        match dictOf req.post f.name with
        | Option.none => True
        | Option.some raw => f.to_python raw = Except.error ()) →
      (instance_from_request req w).attrs = []) := by
  constructor
  · intro n v hmem
    rw [instance_from_request_attrs] at hmem
    rcases List.mem_filterMap.mp hmem with ⟨f, hf, hce⟩
    unfold coercedEntry at hce
    split at hce
    · exact absurd hce (by simp)
    · next raw hraw =>
      split at hce
      · exact absurd hce (by simp)
      · next v0 hok =>
        split at hce
        · exact absurd hce (by simp)
        · rcases Option.some_inj.mp hce with h
          rcases Prod.mk.injEq .. ▸ h with ⟨hn, hv⟩
          subst hn; subst hv
          exact ⟨f, hf, rfl, raw, hraw, hok⟩
  · intro hall
    rw [instance_from_request_attrs, List.filterMap_eq_nil_iff]
    intro f hf
    have hthis := hall f hf
    unfold coercedEntry
    cases h1 : dictOf req.post f.name with
    | none => rfl
    | some raw =>
      rw [h1] at hthis
      simp only [] at hthis
      simp [hthis]

theorem instance_from_request_coercion_witness :
    (instance_from_request invalidPostWidget.request invalidPostWidget).attrs
      = [] :=
  (instance_from_request_coercion invalidPostWidget.request
    invalidPostWidget).2 (by intro f hf; fin_cases hf <;> exact rfl)

/-- Claim C9: a submitted field whose coercion succeeds but yields `None` is
also omitted, so every populated field of the reconstructed instance carries
a non-`None` value. -/
theorem instance_from_request_values_not_none (req : Request)
    (w : WidgetConfig) (n : String) (v : PyVal)
    (hmem : (n, v) ∈ (instance_from_request req w).attrs) :
    v ≠ PyVal.none := by
  rw [instance_from_request_attrs] at hmem
  rcases List.mem_filterMap.mp hmem with ⟨f, _, hce⟩
  unfold coercedEntry at hce
  split at hce
  · exact absurd hce (by simp)
  · split at hce
    · exact absurd hce (by simp)
    · next v0 hok =>
      split at hce
      · exact absurd hce (by simp)
      · next hne =>
        rcases Option.some_inj.mp hce with h
        rcases Prod.mk.injEq .. ▸ h with ⟨hn, hv⟩
        subst hv
        exact hne

theorem instance_from_request_values_not_none_witness :
    ("category", PyVal.int 2) ∈
      (instance_from_request mixedPostWidget.request mixedPostWidget).attrs ∧
    PyVal.int 2 ≠ PyVal.none :=
  ⟨by decide,
    instance_from_request_values_not_none mixedPostWidget.request
      mixedPostWidget "category" (PyVal.int 2) (by decide)⟩

/-- Claim C5: on a non-POST request, when the trailing path segment does not
parse as an integer, `_get_instance` returns `None` (the `ValueError` is
caught) instead of raising; when it does parse, the instance is obtained
through `modeladmin.get_object`. -/
theorem getInstance_nonpost (w : WidgetConfig)
    (hm : w.request.method ≠ "POST") :
    (pyInt (trailingSegment w.request.pathInfo) = Option.none →
      getInstance w = Option.none) ∧
    (∀ oid, pyInt (trailingSegment w.request.pathInfo) = Option.some oid →
      getInstance w = w.modeladmin.get_object w.request oid) := by
  constructor
  · intro hp; simp [getInstance, hm, hp]
  · intro oid hp; simp [getInstance, hm, hp]

theorem getInstance_nonpost_witness :
    getInstance exWidget = Option.none ∧
    getInstance exWidgetB =
      exWidgetB.modeladmin.get_object exWidgetB.request 1 :=
  ⟨(getInstance_nonpost exWidget (by decide)).1 (by decide),
    (getInstance_nonpost exWidgetB (by decide)).2 1 (by decide)⟩

/-- Claim C6: with no override name, the widget identifier depends only on
the triple (site secret, base-field name, admin class name): equal triples
give equal identifiers; with an explicit `unique_name`, that name is the
identifier. -/
theorem hashedName_deterministic (secret : String) (w1 w2 : WidgetConfig)
    (h1 : w1.unique_name = Option.none) (h2 : w2.unique_name = Option.none)
    (hf : w1.base_field.name = w2.base_field.name)
    (ha : w1.modeladmin.className = w2.modeladmin.className) :
    hashedName secret w1 = hashedName secret w2 ∧
    ∀ (w : WidgetConfig) (u : String), w.unique_name = Option.some u →
      hashedName secret w = u := by
  constructor
  · unfold hashedName; rw [h1, h2, hf, ha]
  · intro w u hu; unfold hashedName; rw [hu]

theorem hashedName_deterministic_witness :
    hashedName "secret" exWidget = hashedName "secret" exWidgetB ∧
    hashedName "secret" regWidget1 = "_w1" :=
  ⟨(hashedName_deterministic "secret" exWidget exWidgetB rfl rfl rfl rfl).1,
    (hashedName_deterministic "secret" exWidget exWidgetB rfl rfl rfl
      rfl).2 regWidget1 "_w1" rfl⟩

/-- Claim C7 (counterexample): the salted string is the plain concatenation
of secret, field name and admin class name, so the componentwise-different
triples ("s", "bc", "X") and ("s", "b", "cX") concatenate to the same string
"sbcX" and the two widgets receive the same identifier. -/
theorem hashedName_boundary_collision :
    hashedName "s" boundaryWidget1 = hashedName "s" boundaryWidget2 ∧
    boundaryWidget1.unique_name = Option.none ∧
    boundaryWidget2.unique_name = Option.none ∧
    boundaryWidget1.base_field.name = "bc" ∧
    boundaryWidget1.modeladmin.className = "X" ∧
    boundaryWidget2.base_field.name = "b" ∧
    boundaryWidget2.modeladmin.className = "cX" ∧
    (("s", "bc", "X") : String × String × String) ≠ ("s", "b", "cX") :=
  ⟨rfl, rfl, rfl, rfl, rfl, rfl, rfl, by decide⟩

/-- Claim C7 (amended): for two widgets without override names the derived
identifiers are equal exactly when the SHA-1 digests of the concatenated
(secret, field name, admin class name) strings are equal — triples that
differ componentwise need not give different identifiers, since distinct
triples can concatenate to the same salted string (see the boundary
collision), and distinct concatenations give distinct identifiers only up to
SHA-1 collisions. -/
theorem hashedName_eq_iff_digest_eq (s1 s2 : String) (w1 w2 : WidgetConfig)
    (h1 : w1.unique_name = Option.none)
    (h2 : w2.unique_name = Option.none) :
    hashedName s1 w1 = hashedName s2 w2 ↔
      sha1hex (s1 ++ w1.base_field.name ++ w1.modeladmin.className) =
        sha1hex (s2 ++ w2.base_field.name ++ w2.modeladmin.className) := by
  unfold hashedName
  rw [h1, h2]
  constructor
  · intro h
    have hd := congrArg String.data h
    rw [String.data_append, String.data_append] at hd
    exact String.ext (List.append_cancel_left hd)
  · intro h; rw [h]

set_option maxRecDepth 1000000 in
theorem hashedName_eq_iff_digest_eq_witness :
    hashedName "secret" exWidget ≠ hashedName "secret" authorWidget :=
  fun h => absurd
    ((hashedName_eq_iff_digest_eq "secret" "secret" exWidget authorWidget
      rfl rfl).mp h)
    (by decide)

theorem foldl_construct_lookup (secret : String)
    (evs : List (PyType × WidgetConfig)) :
    ∀ (r : Registry) (k : String),
    registryLookup (evs.foldl (fun r e => construct secret r e.1 e.2) r) k =
      match evs.reverse.find? (fun e => hashedName secret e.2 == k) with
      | Option.some e => Option.some (e.1, e.2)
      | Option.none => registryLookup r k := by
  induction evs with
  | nil => intro r k; rfl
  | cons e evs ih =>
    intro r k
    rw [List.foldl_cons, ih, List.reverse_cons, List.find?_append]
    cases hf : evs.reverse.find? (fun e => hashedName secret e.2 == k) with
    | some e2 => simp [Option.or]
    | none =>
      cases hp : (hashedName secret e.2 == k) with
      | true =>
        simp [Option.or, List.find?_cons, hp, construct, registryInsert,
          registryLookup]
      | false =>
        simp [Option.or, List.find?_cons, hp, construct, registryInsert,
          registryLookup]

theorem runConstructions_lookup (secret : String)
    (evs : List (PyType × WidgetConfig)) (k : String) :
    registryLookup (runConstructions secret evs) k =
      (evs.reverse.find? (fun e => hashedName secret e.2 == k)).map
        (fun e => (e.1, e.2)) := by
  unfold runConstructions
  rw [foldl_construct_lookup]
  cases hf : evs.reverse.find? (fun e => hashedName secret e.2 == k) with
  | some e2 => rfl
  | none => rfl

/-- Claim C8: construction is the only registry operation; after any
sequence of constructions the entry under an identifier is exactly the most
recently constructed widget with that identifier (last write wins), a newly
constructed widget is registered under its hashed name, and no operation
ever removes an entry. -/
theorem registry_registration (secret : String) :
    (∀ (evs : List (PyType × WidgetConfig)) (k : String),
      registryLookup (runConstructions secret evs) k =
        (evs.reverse.find? (fun e => hashedName secret e.2 == k)).map
          (fun e => (e.1, e.2))) ∧
    (∀ (evs : List (PyType × WidgetConfig)) (t : PyType) (w : WidgetConfig),
      registryLookup (runConstructions secret (evs ++ [(t, w)]))
        (hashedName secret w) = Option.some (t, w)) ∧
    (∀ (evs evs2 : List (PyType × WidgetConfig)) (k : String),
      (registryLookup (runConstructions secret evs) k).isSome = true →
      (registryLookup (runConstructions secret (evs ++ evs2)) k).isSome =
        true) := by
  refine ⟨runConstructions_lookup secret, ?_, ?_⟩
  · intro evs t w
    rw [runConstructions_lookup, List.reverse_append]
    simp [List.find?_cons]
  · intro evs evs2 k h
    rw [runConstructions_lookup] at h ⊢
    rw [List.reverse_append, List.find?_append]
    cases hf : evs.reverse.find? (fun e => hashedName secret e.2 == k) with
    | none => rw [hf] at h; simp at h
    | some e2 =>
      cases hg : evs2.reverse.find? (fun e => hashedName secret e.2 == k) with
      | none => simp [Option.or, hf]
      | some e3 => simp [Option.or, hg]

theorem registry_registration_witness :
    registryLookup
      (runConstructions "s" ([] ++ [(PyType.flexSelectWidget, regWidget1)]))
      (hashedName "s" regWidget1) =
      Option.some (PyType.flexSelectWidget, regWidget1) ∧
    (registryLookup
      (runConstructions "s"
        ([(PyType.flexSelectWidget, regWidget1)] ++
          [(PyType.flexSelectMultipleWidget, regWidget2)]))
      (hashedName "s" regWidget1)).isSome = true :=
  ⟨(registry_registration "s").2.1 [] PyType.flexSelectWidget regWidget1,
    (registry_registration "s").2.2 [(PyType.flexSelectWidget, regWidget1)]
      [(PyType.flexSelectMultipleWidget, regWidget2)]
      (hashedName "s" regWidget1) (by decide)⟩

/-- Claim C10: `FlexSelectWidget.instances` and
`FlexSelectMultipleWidget.instances` both resolve along the MRO to the one
dictionary owned by `FlexBaseWidget`, and constructing a widget of either
class inserts it into that single registry, where a lookup by identifier
finds widgets of both classes. -/
theorem shared_instances_registry :
    instancesOwner PyType.flexSelectWidget =
      Option.some PyType.flexBaseWidget ∧
    instancesOwner PyType.flexSelectMultipleWidget =
      Option.some PyType.flexBaseWidget ∧
    (∀ (secret : String) (w1 w2 : WidgetConfig),
      hashedName secret w1 ≠ hashedName secret w2 →
      registryLookup
        (runConstructions secret
          [(PyType.flexSelectWidget, w1),
            (PyType.flexSelectMultipleWidget, w2)])
        (hashedName secret w1) =
        Option.some (PyType.flexSelectWidget, w1) ∧
      registryLookup
        (runConstructions secret
          [(PyType.flexSelectWidget, w1),
            (PyType.flexSelectMultipleWidget, w2)])
        (hashedName secret w2) =
        Option.some (PyType.flexSelectMultipleWidget, w2)) := by
  refine ⟨rfl, rfl, ?_⟩
  intro secret w1 w2 hne
  have hb : (hashedName secret w2 == hashedName secret w1) = false := by
    rw [beq_eq_false_iff_ne]; exact fun hh => hne hh.symm
  constructor
  · simp [runConstructions, construct, registryInsert, registryLookup,
      List.find?_cons, hb]
  · simp [runConstructions, construct, registryInsert, registryLookup,
      List.find?_cons]

theorem shared_instances_registry_witness :
    registryLookup
      (runConstructions "s"
        [(PyType.flexSelectWidget, regWidget1),
          (PyType.flexSelectMultipleWidget, regWidget2)])
      (hashedName "s" regWidget1) =
      Option.some (PyType.flexSelectWidget, regWidget1) ∧
    registryLookup
      (runConstructions "s"
        [(PyType.flexSelectWidget, regWidget1),
          (PyType.flexSelectMultipleWidget, regWidget2)])
      (hashedName "s" regWidget2) =
      Option.some (PyType.flexSelectMultipleWidget, regWidget2) :=
  shared_instances_registry.2.2 "s" regWidget1 regWidget2 (by decide)

/-- Claim C1: the render method resolves the instance and assigns the choice
list first, but the first element of the output concatenation is the
`super(self, FlexBaseWidget).render(...)` call, whose swapped arguments make
CPython raise `TypeError` — so every render call raises instead of returning
the concatenated markup the claim (and the spec's step 3) describes. -/
theorem render_always_raises_typeerror (secret url : String)
    (w : WidgetConfig) :
    (render secret url w).2 = Except.error PyErr.typeError := rfl

end Flexselect
